import Mathlib

/-!
Verification of `yunmai_data_processor.py` (UCSD-SEELab/YunmaiDataCapture).

The notification handler `YunmaiDelegate.handleNotification` is embedded as a
pure function from the delegate state and the incoming byte buffer to either a
Python-style `IndexError` (the script indexes the buffer without bounds checks
beyond `len(data) < 4`) or the updated state, the list of observable outputs
(console diagnostics and MQTT publish calls, in program order), and a
classification of what the frame decoded to.  Bytes are `Nat` (Python integers
from `ord`), the ×0.01 scaling is exact rational arithmetic (`ℚ`), and console
prints carry their structured contents rather than formatted text.

The `__main__` connect/receive loop is embedded as a one-iteration step
function `loopIter` over the `scale_connected` flag, parameterised by the
transport outcome of the iteration.
-/

namespace Yunmai

/-- A Python runtime error raised by the handler: `data[i]` with `i` out of
range raises `IndexError`. -/
inductive PyError where
  | indexError (i : Nat) : PyError
deriving DecidableEq, Repr

/-- The dict built for a finished weighing (`dict_parsed_msg` in the source):
fields `datetime`, `userid`, `weight`, `resistance`, `fat`. -/
structure ParsedMsg where
  datetime : Nat
  userid : Nat
  weight : ℚ
  resistance : Nat
  fat : ℚ
deriving DecidableEq, Repr

/-- What a structurally valid frame decoded to, by message type at offset 3. -/
inductive Measurement where
  | inProgress (datetime : Nat) (weight : ℚ) : Measurement
  | finished (m : ParsedMsg) : Measurement
  | deviceTimeAck : Measurement
  | unknown (messageType : Nat) : Measurement
deriving DecidableEq, Repr

/-- Outcome of one `handleNotification` call that returned normally. -/
inductive HandleResult where
  | invalidStart : HandleResult
  | incomplete : HandleResult
  | decoded (m : Measurement) : HandleResult
deriving DecidableEq, Repr

/-- A console diagnostic, carrying its structured contents (the script prints
formatted strings; the fields here are exactly the values interpolated). -/
inductive Diag where
  | packetReceived (scaleName : String) : Diag
  | hexDump (data : List Nat) : Diag
  | errPacketStart (scaleName : String) : Diag
  | errIncomplete (scaleName : String) : Diag
  | inProgressReport (scaleName : String) (datetime : Nat) (weight : ℚ) : Diag
  | finishedReport (scaleName : String) (datetime : Nat) (weight : ℚ) (fat : ℚ)
      (resistance : Nat) : Diag
  | unprocessedType (scaleName : String) (messageType : Nat) : Diag
deriving DecidableEq, Repr

/-- An observable output of the handler, in program order. -/
inductive Output where
  | print (d : Diag) : Output
  | publish (topic : String) (payload : ParsedMsg) : Output
deriving DecidableEq, Repr

/-- The mutable state of a `YunmaiDelegate` (fields of `__init__`); the MQTT
client is abstracted to whether a sink is configured (`self.client` truthy). -/
structure DelegateState where
  message_prev : List Nat
  message_now : List Nat
  list_parsed_msg : List ParsedMsg
  client : Bool
  scale_name : String
deriving DecidableEq, Repr

/-- The delegate state right after `__init__`. -/
def initState (scaleName : String) (client : Bool) : DelegateState :=
  { message_prev := []
    message_now := []
    list_parsed_msg := []
    client := client
    scale_name := scaleName }

/-- Python list indexing `data[i]`: the value when `i < len(data)`, an
`IndexError` otherwise. -/
def pyIndex (data : List Nat) (i : Nat) : Except PyError Nat :=
  match data.get? i with
  | some v => Except.ok v
  | none => Except.error (PyError.indexError i)

/-- The two unconditional prints at the top of the handler: the packet-received
line and the hex dump of the buffer. -/
def headerOuts (st : DelegateState) (data : List Nat) : List Output :=
  [Output.print (Diag.packetReceived st.scale_name),
   Output.print (Diag.hexDump data)]

/-- `YunmaiDelegate.handleNotification`, translated statement by statement.
Returns the updated delegate state, the outputs in program order, and the
classification of the frame; or the `IndexError` the Python code would raise. -/
def handleNotification (st : DelegateState) (data : List Nat) :
    Except PyError (DelegateState × List Output × HandleResult) := do
  let outs := headerOuts st data
  let b0 ← pyIndex data 0
  if b0 ≠ 0x0d then
    return (st, outs ++ [Output.print (Diag.errPacketStart st.scale_name)],
      HandleResult.invalidStart)
  else if data.length < 4 then
    return (st, outs ++ [Output.print (Diag.errIncomplete st.scale_name)],
      HandleResult.incomplete)
  else
    let st := { st with message_prev := st.message_now, message_now := data }
    let message_type ← pyIndex data 3
    if message_type = 0x01 then
      let d4 ← pyIndex data 4
      let d5 ← pyIndex data 5
      let d6 ← pyIndex data 6
      let d7 ← pyIndex data 7
      let d8 ← pyIndex data 8
      let d9 ← pyIndex data 9
      let datetime := (d4 <<< (8*3)) + (d5 <<< (8*2)) + (d6 <<< (8*1)) + d7
      let weight : ℚ := ((d8 <<< (8*1)) + d9 : Nat) * (0.01 : ℚ)
      return (st,
        outs ++ [Output.print (Diag.inProgressReport st.scale_name datetime weight)],
        HandleResult.decoded (Measurement.inProgress datetime weight))
    else if message_type = 0x02 then
      let d5 ← pyIndex data 5
      let d6 ← pyIndex data 6
      let d7 ← pyIndex data 7
      let d8 ← pyIndex data 8
      let d9 ← pyIndex data 9
      let d10 ← pyIndex data 10
      let d11 ← pyIndex data 11
      let d12 ← pyIndex data 12
      let d13 ← pyIndex data 13
      let d14 ← pyIndex data 14
      let d15 ← pyIndex data 15
      let d16 ← pyIndex data 16
      let d17 ← pyIndex data 17
      let d18 ← pyIndex data 18
      let datetime := (d5 <<< (8*3)) + (d6 <<< (8*2)) + (d7 <<< (8*1)) + d8
      let userid := (d9 <<< (8*3)) + (d10 <<< (8*2)) + (d11 <<< (8*1)) + d12
      let weight : ℚ := ((d13 <<< (8*1)) + d14 : Nat) * (0.01 : ℚ)
      let resistance := (d15 <<< (8*1)) + d16
      let fat : ℚ := ((d17 <<< (8*1)) + d18 : Nat) * (0.01 : ℚ)
      let m : ParsedMsg :=
        { datetime := datetime, userid := userid, weight := weight,
          resistance := resistance, fat := fat }
      return ({ st with list_parsed_msg := st.list_parsed_msg ++ [m] },
        outs
          ++ [Output.print
                (Diag.finishedReport st.scale_name datetime weight fat resistance)]
          ++ (if st.client then [Output.publish "YunmaiScaleE35F/raw" m] else []),
        HandleResult.decoded (Measurement.finished m))
    else if message_type = 0x17 then
      return (st, outs, HandleResult.decoded Measurement.deviceTimeAck)
    else
      return (st,
        outs ++ [Output.print (Diag.unprocessedType st.scale_name message_type)],
        HandleResult.decoded (Measurement.unknown message_type))

/-- The publish calls among a list of outputs, as topic–payload pairs. -/
def publishes (outs : List Output) : List (String × ParsedMsg) :=
  outs.filterMap fun o =>
    match o with
    | Output.publish t p => some (t, p)
    | _ => none

/-- The payloads of the publish calls among a list of outputs. -/
def publishedPayloads (outs : List Output) : List ParsedMsg :=
  (publishes outs).map Prod.snd

/-- Byte `i` of a buffer (meaningful when `i < data.length`). -/
def byte (data : List Nat) (i : Nat) : Nat :=
  data.getD i 0

/-- The state update `message_prev = message_now[:]; message_now = data`
performed once a frame passes the start and length checks. -/
def stRetain (st : DelegateState) (data : List Nat) : DelegateState :=
  { st with message_prev := st.message_now, message_now := data }

/-- The `dict_parsed_msg` assembled from a type-0x02 frame: big-endian fields
at the fixed offsets of the source. -/
def finishedMsg (data : List Nat) : ParsedMsg :=
  { datetime := (byte data 5 <<< (8*3)) + (byte data 6 <<< (8*2))
      + (byte data 7 <<< (8*1)) + byte data 8
    userid := (byte data 9 <<< (8*3)) + (byte data 10 <<< (8*2))
      + (byte data 11 <<< (8*1)) + byte data 12
    weight := (((byte data 13 <<< (8*1)) + byte data 14 : Nat) : ℚ) * (0.01 : ℚ)
    resistance := (byte data 15 <<< (8*1)) + byte data 16
    fat := (((byte data 17 <<< (8*1)) + byte data 18 : Nat) : ℚ) * (0.01 : ℚ) }

/-- A well-formed finished-weighing frame (type 0x02, 19 bytes): timestamp 100,
user id 7, weight bytes `0x00 0xC8`, resistance bytes `0x00 0x96`, fat bytes
`0x00 0x37`. -/
def finFrame : List Nat :=
  [0x0d, 0x1e, 0x13, 0x02, 0x00,
   0x00, 0x00, 0x00, 0x64,
   0x00, 0x00, 0x00, 0x07,
   0x00, 0xc8, 0x00, 0x96, 0x00, 0x37]

/-- The device-time frame of the spec scenario: `[0x0d, 0x1e, 0x05, 0x17]`. -/
def timeFrame : List Nat :=
  [0x0d, 0x1e, 0x05, 0x17]

/-- A delegate configured with the default scale name and a sink. -/
def st0 : DelegateState :=
  initState "YunmaiScale" true

/-- The delegate state after `st0` handles `finFrame`. -/
def finState : DelegateState :=
  { message_prev := []
    message_now := finFrame
    list_parsed_msg := [finishedMsg finFrame]
    client := true
    scale_name := "YunmaiScale" }

/-- The outputs of `st0` handling `finFrame`. -/
def finOuts : List Output :=
  headerOuts st0 finFrame
    ++ [Output.print (Diag.finishedReport "YunmaiScale" (finishedMsg finFrame).datetime
          (finishedMsg finFrame).weight (finishedMsg finFrame).fat
          (finishedMsg finFrame).resistance)]
    ++ [Output.publish "YunmaiScaleE35F/raw" (finishedMsg finFrame)]

/-- The delegate state after `st0` handles `timeFrame`. -/
def timeState : DelegateState :=
  { message_prev := []
    message_now := timeFrame
    list_parsed_msg := []
    client := true
    scale_name := "YunmaiScale" }

/-- The receive loop processing a list of frames in order; an uncaught
`IndexError` terminates the script, so no later frame is processed. -/
def runFrames (st : DelegateState) : List (List Nat) → DelegateState
  | [] => st
  | d :: ds =>
    match handleNotification st d with
    | Except.ok (st2, _, _) => runFrames st2 ds
    | Except.error _ => st

lemma byte_lt {data : List Nat} {i : Nat} (h : i < data.length) :
    data[i]? = some (byte data i) := by
  rw [List.getElem?_eq_getElem h, byte, List.getD_eq_getElem?_getD,
    List.getElem?_eq_getElem h, Option.getD_some]

lemma handle_badStart (st : DelegateState) (data : List Nat) (b0 : Nat)
    (h0 : data[0]? = some b0) (hb : b0 ≠ 0x0d) :
    handleNotification st data =
      Except.ok (st,
        headerOuts st data ++ [Output.print (Diag.errPacketStart st.scale_name)],
        HandleResult.invalidStart) := by
  simp [handleNotification, pyIndex, h0, hb, bind, Except.bind, pure, Except.pure]

lemma handle_shortLen (st : DelegateState) (data : List Nat)
    (h0 : data[0]? = some 0x0d) (hlen : data.length < 4) :
    handleNotification st data =
      Except.ok (st,
        headerOuts st data ++ [Output.print (Diag.errIncomplete st.scale_name)],
        HandleResult.incomplete) := by
  simp [handleNotification, pyIndex, h0, hlen, bind, Except.bind, pure, Except.pure]

lemma handle_type2 (st : DelegateState) (data : List Nat)
    (h0 : data[0]? = some 0x0d) (hlen : 19 ≤ data.length) (h3 : data[3]? = some 0x02) :
    handleNotification st data =
      Except.ok ({ stRetain st data with
          list_parsed_msg := st.list_parsed_msg ++ [finishedMsg data] },
        headerOuts st data
          ++ [Output.print (Diag.finishedReport st.scale_name (finishedMsg data).datetime
                (finishedMsg data).weight (finishedMsg data).fat
                (finishedMsg data).resistance)]
          ++ (if st.client then [Output.publish "YunmaiScaleE35F/raw" (finishedMsg data)]
              else []),
        HandleResult.decoded (Measurement.finished (finishedMsg data))) := by
  have hlt : ¬ data.length < 4 := by omega
  have h5 := byte_lt (show 5 < data.length by omega)
  have h6 := byte_lt (show 6 < data.length by omega)
  have h7 := byte_lt (show 7 < data.length by omega)
  have h8 := byte_lt (show 8 < data.length by omega)
  have h9 := byte_lt (show 9 < data.length by omega)
  have h10 := byte_lt (show 10 < data.length by omega)
  have h11 := byte_lt (show 11 < data.length by omega)
  have h12 := byte_lt (show 12 < data.length by omega)
  have h13 := byte_lt (show 13 < data.length by omega)
  have h14 := byte_lt (show 14 < data.length by omega)
  have h15 := byte_lt (show 15 < data.length by omega)
  have h16 := byte_lt (show 16 < data.length by omega)
  have h17 := byte_lt (show 17 < data.length by omega)
  have h18 := byte_lt (show 18 < data.length by omega)
  simp [handleNotification, pyIndex, h0, hlt, h3, h5, h6, h7, h8, h9, h10, h11,
    h12, h13, h14, h15, h16, h17, h18, stRetain, finishedMsg,
    bind, Except.bind, pure, Except.pure]

lemma handle_type17 (st : DelegateState) (data : List Nat)
    (h0 : data[0]? = some 0x0d) (hlen : 4 ≤ data.length) (h3 : data[3]? = some 0x17) :
    handleNotification st data =
      Except.ok (stRetain st data, headerOuts st data,
        HandleResult.decoded Measurement.deviceTimeAck) := by
  have hlt : ¬ data.length < 4 := by omega
  simp [handleNotification, pyIndex, h0, hlt, h3, stRetain,
    bind, Except.bind, pure, Except.pure]

lemma handle_unknownType (st : DelegateState) (data : List Nat) (t : Nat)
    (h0 : data[0]? = some 0x0d) (hlen : 4 ≤ data.length) (h3 : data[3]? = some t)
    (ht1 : t ≠ 0x01) (ht2 : t ≠ 0x02) (ht17 : t ≠ 0x17) :
    handleNotification st data =
      Except.ok (stRetain st data,
        headerOuts st data ++ [Output.print (Diag.unprocessedType st.scale_name t)],
        HandleResult.decoded (Measurement.unknown t)) := by
  have hlt : ¬ data.length < 4 := by omega
  simp [handleNotification, pyIndex, h0, hlt, h3, ht1, ht2, ht17, stRetain,
    bind, Except.bind, pure, Except.pure]

lemma handle_cases (st : DelegateState) (data : List Nat) :
    (∃ i, handleNotification st data = Except.error (PyError.indexError i)) ∨
    (handleNotification st data =
      Except.ok (st,
        headerOuts st data ++ [Output.print (Diag.errPacketStart st.scale_name)],
        HandleResult.invalidStart)) ∨
    (handleNotification st data =
      Except.ok (st,
        headerOuts st data ++ [Output.print (Diag.errIncomplete st.scale_name)],
        HandleResult.incomplete)) ∨
    (∃ dt w, handleNotification st data =
      Except.ok (stRetain st data,
        headerOuts st data ++ [Output.print (Diag.inProgressReport st.scale_name dt w)],
        HandleResult.decoded (Measurement.inProgress dt w))) ∨
    (∃ m, handleNotification st data =
      Except.ok ({ stRetain st data with
          list_parsed_msg := st.list_parsed_msg ++ [m] },
        headerOuts st data
          ++ [Output.print (Diag.finishedReport st.scale_name m.datetime m.weight
                m.fat m.resistance)]
          ++ (if st.client then [Output.publish "YunmaiScaleE35F/raw" m] else []),
        HandleResult.decoded (Measurement.finished m))) ∨
    (handleNotification st data =
      Except.ok (stRetain st data, headerOuts st data,
        HandleResult.decoded Measurement.deviceTimeAck)) ∨
    (∃ t, handleNotification st data =
      Except.ok (stRetain st data,
        headerOuts st data ++ [Output.print (Diag.unprocessedType st.scale_name t)],
        HandleResult.decoded (Measurement.unknown t))) := by
  rcases h0 : data[0]? with _ | b0
  · exact Or.inl ⟨0, by simp [handleNotification, pyIndex, h0, bind, Except.bind]⟩
  by_cases hb : b0 = 0x0d
  case neg => exact Or.inr (Or.inl (handle_badStart st data b0 h0 hb))
  subst hb
  by_cases hlen : data.length < 4
  · exact Or.inr (Or.inr (Or.inl (handle_shortLen st data h0 hlen)))
  have h3 : data[3]? = some (byte data 3) := byte_lt (by omega)
  by_cases ht1 : byte data 3 = 0x01
  · rcases h4 : data[4]? with _ | d4
    · exact Or.inl ⟨4, by simp [handleNotification, pyIndex, h0, hlen, h3, ht1, h4,
        bind, Except.bind, pure, Except.pure]⟩
    rcases h5 : data[5]? with _ | d5
    · exact Or.inl ⟨5, by simp [handleNotification, pyIndex, h0, hlen, h3, ht1, h4, h5,
        bind, Except.bind, pure, Except.pure]⟩
    rcases h6 : data[6]? with _ | d6
    · exact Or.inl ⟨6, by simp [handleNotification, pyIndex, h0, hlen, h3, ht1, h4, h5,
        h6, bind, Except.bind, pure, Except.pure]⟩
    rcases h7 : data[7]? with _ | d7
    · exact Or.inl ⟨7, by simp [handleNotification, pyIndex, h0, hlen, h3, ht1, h4, h5,
        h6, h7, bind, Except.bind, pure, Except.pure]⟩
    rcases h8 : data[8]? with _ | d8
    · exact Or.inl ⟨8, by simp [handleNotification, pyIndex, h0, hlen, h3, ht1, h4, h5,
        h6, h7, h8, bind, Except.bind, pure, Except.pure]⟩
    rcases h9 : data[9]? with _ | d9
    · exact Or.inl ⟨9, by simp [handleNotification, pyIndex, h0, hlen, h3, ht1, h4, h5,
        h6, h7, h8, h9, bind, Except.bind, pure, Except.pure]⟩
    refine Or.inr (Or.inr (Or.inr (Or.inl
      ⟨(d4 <<< (8*3)) + (d5 <<< (8*2)) + (d6 <<< (8*1)) + d7,
        (((d8 <<< (8*1)) + d9 : Nat) : ℚ) * (0.01 : ℚ), ?_⟩)))
    simp [handleNotification, pyIndex, h0, hlen, h3, ht1, h4, h5, h6, h7, h8, h9,
      stRetain, bind, Except.bind, pure, Except.pure]
  by_cases ht2 : byte data 3 = 0x02
  · rcases h5 : data[5]? with _ | d5
    · exact Or.inl ⟨5, by simp [handleNotification, pyIndex, h0, hlen, h3, ht1, ht2,
        h5, bind, Except.bind, pure, Except.pure]⟩
    rcases h6 : data[6]? with _ | d6
    · exact Or.inl ⟨6, by simp [handleNotification, pyIndex, h0, hlen, h3, ht1, ht2,
        h5, h6, bind, Except.bind, pure, Except.pure]⟩
    rcases h7 : data[7]? with _ | d7
    · exact Or.inl ⟨7, by simp [handleNotification, pyIndex, h0, hlen, h3, ht1, ht2,
        h5, h6, h7, bind, Except.bind, pure, Except.pure]⟩
    rcases h8 : data[8]? with _ | d8
    · exact Or.inl ⟨8, by simp [handleNotification, pyIndex, h0, hlen, h3, ht1, ht2,
        h5, h6, h7, h8, bind, Except.bind, pure, Except.pure]⟩
    rcases h9 : data[9]? with _ | d9
    · exact Or.inl ⟨9, by simp [handleNotification, pyIndex, h0, hlen, h3, ht1, ht2,
        h5, h6, h7, h8, h9, bind, Except.bind, pure, Except.pure]⟩
    rcases h10 : data[10]? with _ | d10
    · exact Or.inl ⟨10, by simp [handleNotification, pyIndex, h0, hlen, h3, ht1, ht2,
        h5, h6, h7, h8, h9, h10, bind, Except.bind, pure, Except.pure]⟩
    rcases h11 : data[11]? with _ | d11
    · exact Or.inl ⟨11, by simp [handleNotification, pyIndex, h0, hlen, h3, ht1, ht2,
        h5, h6, h7, h8, h9, h10, h11, bind, Except.bind, pure, Except.pure]⟩
    rcases h12 : data[12]? with _ | d12
    · exact Or.inl ⟨12, by simp [handleNotification, pyIndex, h0, hlen, h3, ht1, ht2,
        h5, h6, h7, h8, h9, h10, h11, h12, bind, Except.bind, pure, Except.pure]⟩
    rcases h13 : data[13]? with _ | d13
    · exact Or.inl ⟨13, by simp [handleNotification, pyIndex, h0, hlen, h3, ht1, ht2,
        h5, h6, h7, h8, h9, h10, h11, h12, h13, bind, Except.bind, pure, Except.pure]⟩
    rcases h14 : data[14]? with _ | d14
    · exact Or.inl ⟨14, by simp [handleNotification, pyIndex, h0, hlen, h3, ht1, ht2,
        h5, h6, h7, h8, h9, h10, h11, h12, h13, h14, bind, Except.bind, pure,
        Except.pure]⟩
    rcases h15 : data[15]? with _ | d15
    · exact Or.inl ⟨15, by simp [handleNotification, pyIndex, h0, hlen, h3, ht1, ht2,
        h5, h6, h7, h8, h9, h10, h11, h12, h13, h14, h15, bind, Except.bind, pure,
        Except.pure]⟩
    rcases h16 : data[16]? with _ | d16
    · exact Or.inl ⟨16, by simp [handleNotification, pyIndex, h0, hlen, h3, ht1, ht2,
        h5, h6, h7, h8, h9, h10, h11, h12, h13, h14, h15, h16, bind, Except.bind,
        pure, Except.pure]⟩
    rcases h17 : data[17]? with _ | d17
    · exact Or.inl ⟨17, by simp [handleNotification, pyIndex, h0, hlen, h3, ht1, ht2,
        h5, h6, h7, h8, h9, h10, h11, h12, h13, h14, h15, h16, h17, bind,
        Except.bind, pure, Except.pure]⟩
    rcases h18 : data[18]? with _ | d18
    · exact Or.inl ⟨18, by simp [handleNotification, pyIndex, h0, hlen, h3, ht1, ht2,
        h5, h6, h7, h8, h9, h10, h11, h12, h13, h14, h15, h16, h17, h18, bind,
        Except.bind, pure, Except.pure]⟩
    refine Or.inr (Or.inr (Or.inr (Or.inr (Or.inl ⟨?_, ?_⟩))))
    · exact { datetime := (d5 <<< (8*3)) + (d6 <<< (8*2)) + (d7 <<< (8*1)) + d8
              userid := (d9 <<< (8*3)) + (d10 <<< (8*2)) + (d11 <<< (8*1)) + d12
              weight := (((d13 <<< (8*1)) + d14 : Nat) : ℚ) * (0.01 : ℚ)
              resistance := (d15 <<< (8*1)) + d16
              fat := (((d17 <<< (8*1)) + d18 : Nat) : ℚ) * (0.01 : ℚ) }
    simp [handleNotification, pyIndex, h0, hlen, h3, ht1, ht2, h5, h6, h7, h8, h9,
      h10, h11, h12, h13, h14, h15, h16, h17, h18, stRetain,
      bind, Except.bind, pure, Except.pure]
  by_cases ht17 : byte data 3 = 0x17
  · exact Or.inr (Or.inr (Or.inr (Or.inr (Or.inr (Or.inl
      (handle_type17 st data h0 (by omega) (ht17 ▸ h3)))))))
  exact Or.inr (Or.inr (Or.inr (Or.inr (Or.inr (Or.inr ⟨byte data 3,
    handle_unknownType st data (byte data 3) h0 (by omega) h3 ht1 ht2 ht17⟩)))))

lemma handle_finFrame :
    handleNotification st0 finFrame =
      Except.ok (finState, finOuts,
        HandleResult.decoded (Measurement.finished (finishedMsg finFrame))) := by
  have h := handle_type2 st0 finFrame rfl (by simp [finFrame]) rfl
  rw [h]
  simp [st0, initState, finState, finOuts, stRetain]

lemma handle_timeFrame :
    handleNotification st0 timeFrame =
      Except.ok (timeState, headerOuts st0 timeFrame,
        HandleResult.decoded Measurement.deviceTimeAck) := by
  have h := handle_type17 st0 timeFrame rfl (by simp [timeFrame]) rfl
  rw [h]
  simp [st0, initState, timeState, stRetain]

lemma runFrames_length_le (st : DelegateState) (frames : List (List Nat)) :
    (runFrames st frames).list_parsed_msg.length ≤
      st.list_parsed_msg.length + frames.length := by
  induction frames generalizing st with
  | nil => simp [runFrames]
  | cons d ds ih =>
    rw [runFrames]
    rcases handle_cases st d with ⟨i, he⟩ | he | he | ⟨dt, w, he⟩ | ⟨m, he⟩ | he | ⟨t, he⟩ <;>
        rw [he] <;> simp only [List.length_cons]
    · omega
    · exact le_trans (ih st) (by omega)
    · exact le_trans (ih st) (by omega)
    · exact le_trans (ih _) (by simp only [stRetain]; omega)
    · refine le_trans (ih _) ?_
      simp only [stRetain, List.length_append, List.length_singleton]
      omega
    · exact le_trans (ih _) (by simp only [stRetain]; omega)
    · exact le_trans (ih _) (by simp only [stRetain]; omega)

lemma runFrames_replicate (st : DelegateState) (k : Nat)
    (hn : st.scale_name = "YunmaiScale") (hc : st.client = true) :
    (runFrames st (List.replicate k finFrame)).list_parsed_msg.length =
      st.list_parsed_msg.length + k := by
  induction k generalizing st with
  | zero => simp [runFrames]
  | succ n ih =>
    rw [List.replicate_succ, runFrames]
    have h := handle_type2 st finFrame rfl (by simp [finFrame]) rfl
    rw [h]
    rw [ih _ (by simp [stRetain, hn]) (by simp [stRetain, hc])]
    simp [stRetain]
    omega

/-- Outcome of the bounded wait for a notification while connected: a
notification was delivered, the 2-second timeout elapsed, or a
`BTLEException` was raised (with code `DISCONNECTED` or some other code). -/
inductive WaitResult where
  | delivered (data : List Nat) : WaitResult
  | timedOut : WaitResult
  | disconnectError : WaitResult
  | otherBtleError : WaitResult
deriving DecidableEq, Repr

/-- Outcome of `dev_scale.connect(scale_address)`. -/
inductive ConnectResult where
  | success : ConnectResult
  | failure : ConnectResult
deriving DecidableEq, Repr

/-- State of the `__main__` loop: the `scale_connected` flag and the delegate. -/
structure LoopState where
  scale_connected : Bool
  delegate : DelegateState
deriving DecidableEq, Repr

/-- What one loop iteration observably did. -/
inductive IterObs where
  | handledFrame : IterObs
  | idleTimeout : IterObs
  | reportedDisconnect : IterObs
  | swallowedBtleError : IterObs
  | connectAttempt (succeeded : Bool) : IterObs
deriving DecidableEq, Repr

/-- One iteration of the `__main__` while-loop: while connected, wait for a
notification (routing a delivered frame through the delegate, dropping to
disconnected on a `DISCONNECTED` transport error); while disconnected, attempt
to connect.  `wait` is consulted only in the connected branch and `conn` only
in the disconnected branch.  An `IndexError` escaping the delegate is not
caught by the loop and kills the script. -/
def loopIter (s : LoopState) (wait : WaitResult) (conn : ConnectResult) :
    Except PyError (LoopState × IterObs) :=
  if s.scale_connected then
    match wait with
    | WaitResult.delivered data =>
      match handleNotification s.delegate data with
      | Except.ok (d2, _, _) =>
        Except.ok ({ s with delegate := d2 }, IterObs.handledFrame)
      | Except.error e => Except.error e
    | WaitResult.timedOut => Except.ok (s, IterObs.idleTimeout)
    | WaitResult.disconnectError =>
      Except.ok ({ s with scale_connected := false }, IterObs.reportedDisconnect)
    | WaitResult.otherBtleError => Except.ok (s, IterObs.swallowedBtleError)
  else
    match conn with
    | ConnectResult.success =>
      Except.ok ({ s with scale_connected := true }, IterObs.connectAttempt true)
    | ConnectResult.failure => Except.ok (s, IterObs.connectAttempt false)

/-- Claim C1 (code bug): the claim requires that a buffer shorter than the
minimum length of its message type (10 for 0x01, 19 for 0x02) fails with
Incomplete and that no index at or past the buffer length is read; the code
only checks `len(data) < 4` and then reads the fixed offsets unconditionally,
so a 4-byte type-0x01 frame raises `IndexError` at index 4 and a 5-byte
type-0x02 frame raises `IndexError` at index 5. -/
theorem C1_short_frame_reads_out_of_range :
    (∀ st, handleNotification st [0x0d, 0x1e, 0x0b, 0x01] =
      Except.error (PyError.indexError 4)) ∧
    (∀ st, handleNotification st [0x0d, 0x1e, 0x14, 0x02, 0x00] =
      Except.error (PyError.indexError 5)) := by
  constructor <;> intro st <;> rfl

/-- Claim C2: with a sink configured, a frame decoding to Finished causes
exactly one publish whose payload is the decoded measurement, and the
measurement is appended to the history; frames decoding to anything else
cause no publish and leave the history unchanged. -/
theorem C2_finished_published_once (st st2 : DelegateState) (data : List Nat)
    (outs : List Output) (r : HandleResult) (hc : st.client = true)
    (h : handleNotification st data = Except.ok (st2, outs, r)) :
    (∀ m, r = HandleResult.decoded (Measurement.finished m) →
      publishedPayloads outs = [m] ∧
      st2.list_parsed_msg = st.list_parsed_msg ++ [m]) ∧
    ((∀ m, r ≠ HandleResult.decoded (Measurement.finished m)) →
      publishedPayloads outs = [] ∧ st2.list_parsed_msg = st.list_parsed_msg) := by
  rcases handle_cases st data with ⟨i, he⟩ | he | he | ⟨dt, w, he⟩ | ⟨m, he⟩ | he | ⟨t, he⟩
  · rw [he] at h; exact Except.noConfusion h
  · rw [he] at h
    simp only [Except.ok.injEq, Prod.mk.injEq] at h
    obtain ⟨rfl, rfl, rfl⟩ := h
    refine ⟨fun m hm => HandleResult.noConfusion hm, fun _ => ?_⟩
    exact ⟨by simp [publishedPayloads, publishes, headerOuts], rfl⟩
  · rw [he] at h
    simp only [Except.ok.injEq, Prod.mk.injEq] at h
    obtain ⟨rfl, rfl, rfl⟩ := h
    refine ⟨fun m hm => HandleResult.noConfusion hm, fun _ => ?_⟩
    exact ⟨by simp [publishedPayloads, publishes, headerOuts], rfl⟩
  · rw [he] at h
    simp only [Except.ok.injEq, Prod.mk.injEq] at h
    obtain ⟨rfl, rfl, rfl⟩ := h
    refine ⟨fun m hm => ?_, fun _ => ?_⟩
    · exact absurd hm (by simp)
    · exact ⟨by simp [publishedPayloads, publishes, headerOuts], rfl⟩
  · rw [he] at h
    simp only [Except.ok.injEq, Prod.mk.injEq] at h
    obtain ⟨rfl, rfl, rfl⟩ := h
    refine ⟨fun m2 hm => ?_, fun hall => absurd rfl (hall m)⟩
    simp only [HandleResult.decoded.injEq, Measurement.finished.injEq] at hm
    subst hm
    exact ⟨by simp [publishedPayloads, publishes, headerOuts, hc], rfl⟩
  · rw [he] at h
    simp only [Except.ok.injEq, Prod.mk.injEq] at h
    obtain ⟨rfl, rfl, rfl⟩ := h
    refine ⟨fun m hm => ?_, fun _ => ?_⟩
    · exact absurd hm (by simp)
    · exact ⟨by simp [publishedPayloads, publishes, headerOuts], rfl⟩
  · rw [he] at h
    simp only [Except.ok.injEq, Prod.mk.injEq] at h
    obtain ⟨rfl, rfl, rfl⟩ := h
    refine ⟨fun m hm => ?_, fun _ => ?_⟩
    · exact absurd hm (by simp)
    · exact ⟨by simp [publishedPayloads, publishes, headerOuts], rfl⟩

/-- Witness for C2: the delegate `st0` (sink configured) handling `finFrame`
publishes exactly the decoded measurement and appends it to the history. -/
theorem C2_witness :
    publishedPayloads finOuts = [finishedMsg finFrame] ∧
    finState.list_parsed_msg = st0.list_parsed_msg ++ [finishedMsg finFrame] :=
  (C2_finished_published_once st0 finState finFrame finOuts
    (HandleResult.decoded (Measurement.finished (finishedMsg finFrame)))
    rfl handle_finFrame).1 (finishedMsg finFrame) rfl

/-- Claim C3: a valid type-0x02 frame decodes with big-endian fields at the
fixed offsets — timestamp from bytes 5–8, user id from bytes 9–12, weight from
bytes 13–14 times 0.01, resistance from bytes 15–16, fat from bytes 17–18
times 0.01. -/
theorem C3_type2_big_endian_fields (st : DelegateState) (data : List Nat)
    (h0 : data[0]? = some 0x0d) (hlen : 19 ≤ data.length)
    (h3 : data[3]? = some 0x02) :
    ∃ st2 outs, handleNotification st data =
      Except.ok (st2, outs, HandleResult.decoded (Measurement.finished
        { datetime := (byte data 5 <<< (8*3)) + (byte data 6 <<< (8*2))
            + (byte data 7 <<< (8*1)) + byte data 8
          userid := (byte data 9 <<< (8*3)) + (byte data 10 <<< (8*2))
            + (byte data 11 <<< (8*1)) + byte data 12
          weight := (((byte data 13 <<< (8*1)) + byte data 14 : Nat) : ℚ) * (0.01 : ℚ)
          resistance := (byte data 15 <<< (8*1)) + byte data 16
          fat := (((byte data 17 <<< (8*1)) + byte data 18 : Nat) : ℚ) * (0.01 : ℚ) })) :=
  ⟨_, _, handle_type2 st data h0 hlen h3⟩

/-- Witness for C3: in `finFrame` the weight bytes are `0x00 0xC8`, the
resistance bytes `0x00 0x96` and the fat bytes `0x00 0x37`; the decoded
measurement has weight 2.00 kg, resistance 150 ohm and fat 0.55 percent. -/
theorem C3_witness :
    ∃ st2 outs, handleNotification st0 finFrame =
      Except.ok (st2, outs, HandleResult.decoded (Measurement.finished
        { datetime := 100, userid := 7, weight := 2, resistance := 150,
          fat := 55/100 })) := by
  obtain ⟨st2, outs, h⟩ :=
    C3_type2_big_endian_fields st0 finFrame rfl (by simp [finFrame]) rfl
  refine ⟨st2, outs, ?_⟩
  rw [h]
  norm_num [byte, finFrame, Nat.shiftLeft_eq]

/-- Counterexample to C4: a session configured with scale name `MyScale`
still publishes on the hard-coded channel `YunmaiScaleE35F/raw`, not on
`MyScale/raw`. -/
theorem C4_counterexample :
    ∃ st2 outs r,
      handleNotification (initState "MyScale" true) finFrame =
        Except.ok (st2, outs, r) ∧
      (publishes outs).map Prod.fst = ["YunmaiScaleE35F/raw"] ∧
      "YunmaiScaleE35F/raw" ≠ "MyScale" ++ "/raw" := by
  refine ⟨_, _, _,
    handle_type2 (initState "MyScale" true) finFrame rfl (by simp [finFrame]) rfl,
    ?_, by decide⟩
  simp [publishes, headerOuts, initState]

/-- Claim C4 amended: every published event is sent on the fixed channel
`YunmaiScaleE35F/raw` (the topic string is hard-coded in the publish call),
regardless of the scale name the session was configured with. -/
theorem C4_amended_fixed_topic (st st2 : DelegateState) (data : List Nat)
    (outs : List Output) (r : HandleResult)
    (h : handleNotification st data = Except.ok (st2, outs, r)) :
    ∀ t p, (t, p) ∈ publishes outs → t = "YunmaiScaleE35F/raw" := by
  rcases handle_cases st data with ⟨i, he⟩ | he | he | ⟨dt, w, he⟩ | ⟨m, he⟩ | he | ⟨t2, he⟩
  · rw [he] at h; exact Except.noConfusion h
  · rw [he] at h
    simp only [Except.ok.injEq, Prod.mk.injEq] at h
    obtain ⟨rfl, rfl, rfl⟩ := h
    intro t p hm
    simp [publishes, headerOuts] at hm
  · rw [he] at h
    simp only [Except.ok.injEq, Prod.mk.injEq] at h
    obtain ⟨rfl, rfl, rfl⟩ := h
    intro t p hm
    simp [publishes, headerOuts] at hm
  · rw [he] at h
    simp only [Except.ok.injEq, Prod.mk.injEq] at h
    obtain ⟨rfl, rfl, rfl⟩ := h
    intro t p hm
    simp [publishes, headerOuts] at hm
  · rw [he] at h
    simp only [Except.ok.injEq, Prod.mk.injEq] at h
    obtain ⟨rfl, rfl, rfl⟩ := h
    intro t p hm
    by_cases hc : st.client <;> simp [publishes, headerOuts, hc] at hm
    exact hm.1
  · rw [he] at h
    simp only [Except.ok.injEq, Prod.mk.injEq] at h
    obtain ⟨rfl, rfl, rfl⟩ := h
    intro t p hm
    simp [publishes, headerOuts] at hm
  · rw [he] at h
    simp only [Except.ok.injEq, Prod.mk.injEq] at h
    obtain ⟨rfl, rfl, rfl⟩ := h
    intro t p hm
    simp [publishes, headerOuts] at hm

/-- Witness for C4 (amended): the publish emitted for `finFrame` is on the
fixed channel. -/
theorem C4_witness : "YunmaiScaleE35F/raw" = "YunmaiScaleE35F/raw" :=
  C4_amended_fixed_topic st0 finState finFrame finOuts
    (HandleResult.decoded (Measurement.finished (finishedMsg finFrame)))
    handle_finFrame "YunmaiScaleE35F/raw" (finishedMsg finFrame)
    (by simp [finOuts, publishes, headerOuts])

/-- Counterexample to C5: after decoding the device-time frame (which appends
nothing to the history) the delegate retains the raw frame bytes in
`message_now`, so the raw frame is not ephemeral. -/
theorem C5_counterexample :
    handleNotification st0 timeFrame =
      Except.ok (timeState, headerOuts st0 timeFrame,
        HandleResult.decoded Measurement.deviceTimeAck) ∧
    timeState.message_now = timeFrame ∧ timeFrame ≠ [] :=
  ⟨handle_timeFrame, rfl, by simp [timeFrame]⟩

/-- Claim C5 amended: a decoded frame is retained — after any decode that
passes the start and length checks, the session stores the raw frame bytes in
`message_now` and the previously stored frame in `message_prev` (in addition
to any Finished measurement appended to the history); frames rejected as
InvalidStart or Incomplete leave the state unchanged. -/
theorem C5_amended_frame_retained :
    (∀ st data st2 outs m,
      handleNotification st data =
        Except.ok (st2, outs, HandleResult.decoded m) →
      st2.message_now = data ∧ st2.message_prev = st.message_now) ∧
    (∀ st data st2 outs r,
      handleNotification st data = Except.ok (st2, outs, r) →
      r = HandleResult.invalidStart ∨ r = HandleResult.incomplete →
      st2 = st) := by
  constructor
  · intro st data st2 outs m h
    rcases handle_cases st data with ⟨i, he⟩ | he | he | ⟨dt, w, he⟩ | ⟨m2, he⟩ | he | ⟨t, he⟩ <;>
      rw [he] at h
    · exact Except.noConfusion h
    · simp only [Except.ok.injEq, Prod.mk.injEq] at h
      exact absurd h.2.2 (by simp)
    · simp only [Except.ok.injEq, Prod.mk.injEq] at h
      exact absurd h.2.2 (by simp)
    · simp only [Except.ok.injEq, Prod.mk.injEq] at h
      obtain ⟨rfl, rfl, -⟩ := h
      exact ⟨rfl, rfl⟩
    · simp only [Except.ok.injEq, Prod.mk.injEq] at h
      obtain ⟨rfl, rfl, -⟩ := h
      exact ⟨rfl, rfl⟩
    · simp only [Except.ok.injEq, Prod.mk.injEq] at h
      obtain ⟨rfl, rfl, -⟩ := h
      exact ⟨rfl, rfl⟩
    · simp only [Except.ok.injEq, Prod.mk.injEq] at h
      obtain ⟨rfl, rfl, -⟩ := h
      exact ⟨rfl, rfl⟩
  · intro st data st2 outs r h hr
    rcases handle_cases st data with ⟨i, he⟩ | he | he | ⟨dt, w, he⟩ | ⟨m2, he⟩ | he | ⟨t, he⟩ <;>
      rw [he] at h
    · exact Except.noConfusion h
    · simp only [Except.ok.injEq, Prod.mk.injEq] at h
      exact h.1.symm
    · simp only [Except.ok.injEq, Prod.mk.injEq] at h
      exact h.1.symm
    · simp only [Except.ok.injEq, Prod.mk.injEq] at h
      obtain ⟨rfl, rfl, rfl⟩ := h
      rcases hr with hr | hr <;> exact absurd hr (by simp)
    · simp only [Except.ok.injEq, Prod.mk.injEq] at h
      obtain ⟨rfl, rfl, rfl⟩ := h
      rcases hr with hr | hr <;> exact absurd hr (by simp)
    · simp only [Except.ok.injEq, Prod.mk.injEq] at h
      obtain ⟨rfl, rfl, rfl⟩ := h
      rcases hr with hr | hr <;> exact absurd hr (by simp)
    · simp only [Except.ok.injEq, Prod.mk.injEq] at h
      obtain ⟨rfl, rfl, rfl⟩ := h
      rcases hr with hr | hr <;> exact absurd hr (by simp)

/-- Witness for C5 (amended): after `st0` handles `timeFrame` the frame bytes
are retained in `message_now`. -/
theorem C5_witness :
    timeState.message_now = timeFrame ∧
    timeState.message_prev = st0.message_now :=
  C5_amended_frame_retained.1 st0 timeFrame timeState
    (headerOuts st0 timeFrame) Measurement.deviceTimeAck handle_timeFrame

/-- Counterexample to C6: there is no fixed bound on the history length — for
every `N`, replaying `finFrame` `N+1` times yields a history longer than `N`
(the reference keeps the list unbounded). -/
theorem C6_counterexample :
    ¬ ∃ N, ∀ frames,
      (runFrames st0 frames).list_parsed_msg.length ≤ N := by
  rintro ⟨N, hN⟩
  have h := hN (List.replicate (N+1) finFrame)
  rw [runFrames_replicate st0 (N+1) rfl rfl] at h
  have h0 : st0.list_parsed_msg.length = 0 := rfl
  omega

/-- Claim C6 amended: the history is append-only — every handled frame leaves
it unchanged or appends exactly one measurement, so after `n` frames its
length grew by at most `n` — but it is unbounded: no fixed cap is enforced. -/
theorem C6_amended_append_only (st st2 : DelegateState) (data : List Nat)
    (outs : List Output) (r : HandleResult)
    (h : handleNotification st data = Except.ok (st2, outs, r)) :
    (st2.list_parsed_msg = st.list_parsed_msg ∨
      ∃ m, st2.list_parsed_msg = st.list_parsed_msg ++ [m]) ∧
    (∀ frames, (runFrames st frames).list_parsed_msg.length ≤
      st.list_parsed_msg.length + frames.length) := by
  refine ⟨?_, runFrames_length_le st⟩
  rcases handle_cases st data with ⟨i, he⟩ | he | he | ⟨dt, w, he⟩ | ⟨m, he⟩ | he | ⟨t, he⟩ <;>
    rw [he] at h
  · exact Except.noConfusion h
  · simp only [Except.ok.injEq, Prod.mk.injEq] at h
    obtain ⟨rfl, rfl, rfl⟩ := h
    exact Or.inl rfl
  · simp only [Except.ok.injEq, Prod.mk.injEq] at h
    obtain ⟨rfl, rfl, rfl⟩ := h
    exact Or.inl rfl
  · simp only [Except.ok.injEq, Prod.mk.injEq] at h
    obtain ⟨rfl, rfl, rfl⟩ := h
    exact Or.inl rfl
  · simp only [Except.ok.injEq, Prod.mk.injEq] at h
    obtain ⟨rfl, rfl, rfl⟩ := h
    exact Or.inr ⟨m, rfl⟩
  · simp only [Except.ok.injEq, Prod.mk.injEq] at h
    obtain ⟨rfl, rfl, rfl⟩ := h
    exact Or.inl rfl
  · simp only [Except.ok.injEq, Prod.mk.injEq] at h
    obtain ⟨rfl, rfl, rfl⟩ := h
    exact Or.inl rfl

/-- Witness for C6 (amended): handling `finFrame` from `st0` appends exactly
one measurement. -/
theorem C6_witness :
    finState.list_parsed_msg = st0.list_parsed_msg ∨
      ∃ m, finState.list_parsed_msg = st0.list_parsed_msg ++ [m] :=
  (C6_amended_append_only st0 finState finFrame finOuts
    (HandleResult.decoded (Measurement.finished (finishedMsg finFrame)))
    handle_finFrame).1

/-- Claim C7: a non-empty buffer whose first byte is not `0x0d` fails as
InvalidStart, the state is unchanged (the frame is dropped, no measurement is
produced), and no publish call occurs. -/
theorem C7_invalid_start (st : DelegateState) (data : List Nat) (b0 : Nat)
    (h0 : data[0]? = some b0) (hb : b0 ≠ 0x0d) :
    handleNotification st data =
      Except.ok (st,
        headerOuts st data ++ [Output.print (Diag.errPacketStart st.scale_name)],
        HandleResult.invalidStart) ∧
    publishes (headerOuts st data
      ++ [Output.print (Diag.errPacketStart st.scale_name)]) = [] :=
  ⟨handle_badStart st data b0 h0 hb, by simp [publishes, headerOuts]⟩

/-- Witness for C7: the one-byte buffer `[0x0e]` is rejected as InvalidStart
with no publish. -/
theorem C7_witness :
    handleNotification st0 [0x0e] =
      Except.ok (st0,
        headerOuts st0 [0x0e] ++ [Output.print (Diag.errPacketStart st0.scale_name)],
        HandleResult.invalidStart) ∧
    publishes (headerOuts st0 [0x0e]
      ++ [Output.print (Diag.errPacketStart st0.scale_name)]) = [] :=
  C7_invalid_start st0 [0x0e] 0x0e rfl (by decide)

/-- Claim C8: a valid frame whose type byte is none of 0x01, 0x02, 0x17
decodes without raising: it yields Unknown with that type, emits the
unprocessed-type diagnostic, and makes no sink call. -/
theorem C8_unknown_type_no_crash (st : DelegateState) (data : List Nat) (t : Nat)
    (h0 : data[0]? = some 0x0d) (hlen : 4 ≤ data.length) (h3 : data[3]? = some t)
    (ht1 : t ≠ 0x01) (ht2 : t ≠ 0x02) (ht17 : t ≠ 0x17) :
    handleNotification st data =
      Except.ok (stRetain st data,
        headerOuts st data ++ [Output.print (Diag.unprocessedType st.scale_name t)],
        HandleResult.decoded (Measurement.unknown t)) ∧
    publishes (headerOuts st data
      ++ [Output.print (Diag.unprocessedType st.scale_name t)]) = [] :=
  ⟨handle_unknownType st data t h0 hlen h3 ht1 ht2 ht17,
    by simp [publishes, headerOuts]⟩

/-- Witness for C8: the frame `[0x0d, 0x1e, 0x05, 0x06]` (type 0x06, a user
operation response) decodes to Unknown 0x06 with no publish. -/
theorem C8_witness :
    handleNotification st0 [0x0d, 0x1e, 0x05, 0x06] =
      Except.ok (stRetain st0 [0x0d, 0x1e, 0x05, 0x06],
        headerOuts st0 [0x0d, 0x1e, 0x05, 0x06]
          ++ [Output.print (Diag.unprocessedType st0.scale_name 0x06)],
        HandleResult.decoded (Measurement.unknown 0x06)) ∧
    publishes (headerOuts st0 [0x0d, 0x1e, 0x05, 0x06]
      ++ [Output.print (Diag.unprocessedType st0.scale_name 0x06)]) = [] :=
  C8_unknown_type_no_crash st0 [0x0d, 0x1e, 0x05, 0x06] 0x06 rfl (by decide) rfl
    (by decide) (by decide) (by decide)

/-- Claim C9: a transport-reported disconnection while connected drops the
state to disconnected (reported, not fatal, delegate untouched); while
disconnected, every loop iteration issues a connect attempt — success moves to
connected, failure leaves the state disconnected to be retried on the next
iteration. -/
theorem C9_reconnect_state_machine :
    (∀ s wait conn s2 obs, s.scale_connected = true →
      wait = WaitResult.disconnectError →
      loopIter s wait conn = Except.ok (s2, obs) →
      s2.scale_connected = false ∧ obs = IterObs.reportedDisconnect ∧
        s2.delegate = s.delegate) ∧
    (∀ s wait conn, s.scale_connected = false →
      (conn = ConnectResult.success →
        loopIter s wait conn = Except.ok ({ s with scale_connected := true },
          IterObs.connectAttempt true)) ∧
      (conn = ConnectResult.failure →
        loopIter s wait conn = Except.ok (s, IterObs.connectAttempt false))) := by
  constructor
  · intro s wait conn s2 obs hc hw h
    subst hw
    simp only [loopIter, hc, if_true] at h
    simp only [Except.ok.injEq, Prod.mk.injEq] at h
    obtain ⟨rfl, rfl⟩ := h
    exact ⟨rfl, rfl, rfl⟩
  · intro s wait conn hc
    constructor <;> rintro rfl <;> simp [loopIter, hc]

/-- Witness for C9: from the connected state with delegate `st0`, a
disconnection drops `scale_connected`; from the disconnected state a failed
connect attempt leaves it down. -/
theorem C9_witness :
    ((⟨false, st0⟩ : LoopState).scale_connected = false ∧
      IterObs.reportedDisconnect = IterObs.reportedDisconnect ∧
      (⟨false, st0⟩ : LoopState).delegate = (⟨true, st0⟩ : LoopState).delegate) ∧
    loopIter ⟨false, st0⟩ WaitResult.timedOut ConnectResult.failure =
      Except.ok (⟨false, st0⟩, IterObs.connectAttempt false) :=
  ⟨C9_reconnect_state_machine.1 ⟨true, st0⟩ WaitResult.disconnectError
      ConnectResult.failure ⟨false, st0⟩ IterObs.reportedDisconnect rfl rfl rfl,
    (C9_reconnect_state_machine.2 ⟨false, st0⟩ WaitResult.timedOut
      ConnectResult.failure rfl).2 rfl⟩

/-- Claim C10: the start-byte check reads byte 0 before any length check, so
on the empty buffer the handler raises `IndexError` at index 0 and reports
neither InvalidStart nor Incomplete. -/
theorem C10_empty_buffer_index_error :
    ∀ st, handleNotification st [] = Except.error (PyError.indexError 0) := by
  intro st
  rfl

end Yunmai
